import Mathlib

/-!
Shallow embedding of the USB transport layer of the sx1302_hal LoRa
concentrator driver (`libloragw/src/loragw_usb.c`) and of the STTS751
temperature-sensor stub (`libloragw/src/loragw_stts751.c`).

Bytes and 16-bit quantities are modelled as `Nat`, with an explicit
`% 65536` where the C code's `uint16_t` arithmetic can wrap.  The
external relay primitive `mcu_spi_access` is modelled as a parameter
`spi : List Nat → Nat → Option (List Nat)` receiving the request buffer
and the length passed by the caller, and returning the reply buffer on
success (`none` models a nonzero return code).
-/

namespace Sx1302

/-- `LGW_USB_SUCCESS` return code. -/
def LGW_USB_SUCCESS : Int := 0

/-- `LGW_USB_ERROR` return code. -/
def LGW_USB_ERROR : Int := -1

/-- `LGW_I2C_SUCCESS` return code. -/
def LGW_I2C_SUCCESS : Int := 0

/-! ## Frame codec (`lgw_usb_w` / `lgw_usb_r` / `lgw_usb_wb` / `lgw_usb_rb`) -/

/-- The 5-byte request frame built by `lgw_usb_w` (loragw_usb.c lines 237-241):
`out_buf[0]=0; out_buf[1]=mux; out_buf[2]=0x80|((address>>8)&0x7F);
out_buf[3]=address&0xFF; out_buf[4]=data`. -/
def lgw_usb_w_frame (spi_mux_target address data : Nat) : List Nat :=
  [0, spi_mux_target, 0x80 ||| ((address >>> 8) &&& 0x7F), address &&& 0xFF, data]

/-- The 6-byte request frame built by `lgw_usb_r` (loragw_usb.c lines 271-276):
`out_buf[0]=0; out_buf[1]=mux; out_buf[2]=0x00|((address>>8)&0x7F);
out_buf[3]=address&0xFF; out_buf[4]=0; out_buf[5]=0`. -/
def lgw_usb_r_frame (spi_mux_target address : Nat) : List Nat :=
  [0, spi_mux_target, 0x00 ||| ((address >>> 8) &&& 0x7F), address &&& 0xFF, 0x00, 0x00]

/-- The request frame built by `lgw_usb_wb` (loragw_usb.c lines 309-315):
4-byte header followed by the first `size` data bytes. -/
def lgw_usb_wb_frame (spi_mux_target address : Nat) (data : List Nat) (size : Nat) :
    List Nat :=
  [0, spi_mux_target, 0x80 ||| ((address >>> 8) &&& 0x7F), address &&& 0xFF]
    ++ data.take size

/-- The request frame built by `lgw_usb_rb` (loragw_usb.c lines 347-354):
5-byte header (last header byte 0) followed by `size` zero-padding bytes. -/
def lgw_usb_rb_frame (spi_mux_target address : Nat) (size : Nat) : List Nat :=
  [0, spi_mux_target, 0x00 ||| ((address >>> 8) &&& 0x7F), address &&& 0xFF, 0x00]
    ++ List.replicate size 0

/-- `uint16_t command_size = size + 4` of `lgw_usb_wb` (loragw_usb.c line 295):
the `int` sum is converted back to `uint16_t`, hence the `% 65536`. -/
def lgw_usb_wb_command_size (size : Nat) : Nat := (size + 4) % 65536

/-- `uint16_t command_size = size + 5` of `lgw_usb_rb` (loragw_usb.c line 333). -/
def lgw_usb_rb_command_size (size : Nat) : Nat := (size + 5) % 65536

/-! ## Register access operations over an abstract relay primitive -/

/-- `lgw_usb_w` (loragw_usb.c lines 224-252): build the 5-byte frame, invoke
the relay with length 5, return 0 on success and -1 on relay failure. -/
def lgw_usb_w (spi : List Nat → Nat → Option (List Nat))
    (spi_mux_target address data : Nat) : Int :=
  match spi (lgw_usb_w_frame spi_mux_target address data) 5 with
  | none => -1
  | some _ => 0

/-- `lgw_usb_r` (loragw_usb.c lines 257-288): build the 6-byte frame, invoke
the relay with length 6; on success `*data = in_buf[5]` (the last byte of the
reply) and return 0; on relay failure return -1 leaving `*data` unchanged.
The pair is (return code, final value of `*data`), with `data0` the value of
`*data` before the call. -/
def lgw_usb_r (spi : List Nat → Nat → Option (List Nat))
    (spi_mux_target address data0 : Nat) : Int × Nat :=
  match spi (lgw_usb_r_frame spi_mux_target address) 6 with
  | none => (-1, data0)
  | some in_buf => (0, in_buf.getD 5 0)

/-- `lgw_usb_wb` (loragw_usb.c lines 293-326): build the header + payload
frame, invoke the relay with `command_size = (size+4) % 2^16`, return 0 on
success and -1 on relay failure. -/
def lgw_usb_wb (spi : List Nat → Nat → Option (List Nat))
    (spi_mux_target address : Nat) (data : List Nat) (size : Nat) : Int :=
  match spi (lgw_usb_wb_frame spi_mux_target address data size)
      (lgw_usb_wb_command_size size) with
  | none => -1
  | some _ => 0

/-- `lgw_usb_rb` (loragw_usb.c lines 331-367): build the padded frame, invoke
the relay with `command_size = (size+5) % 2^16`; on success
`memcpy(data, in_buf + 5, size)` and return 0; on relay failure return -1
leaving the caller's buffer unchanged.  The pair is (return code, final
contents of the caller's buffer), with `data0` its contents before the call
(`data0.length = size` for a faithful `memcpy` image). -/
def lgw_usb_rb (spi : List Nat → Nat → Option (List Nat))
    (spi_mux_target address : Nat) (data0 : List Nat) (size : Nat) :
    Int × List Nat :=
  match spi (lgw_usb_rb_frame spi_mux_target address size)
      (lgw_usb_rb_command_size size) with
  | none => (-1, data0)
  | some in_buf => (0, (in_buf.drop 5).take size)

/-! ## Terminal configuration (`set_blocking_linux`) -/

/-- The Linux `termios` state as far as this driver touches it: speeds, the
four flag words, and the control-character array `c_cc` (a total map over
indices; `VTIME = 5` and `VMIN = 6` as on Linux). -/
structure Termios where
  c_ispeed : Nat
  c_ospeed : Nat
  c_cflag : Nat
  c_iflag : Nat
  c_oflag : Nat
  c_lflag : Nat
  c_cc : Nat → Nat

/-- Linux `VTIME` index into `c_cc`. -/
def VTIME : Nat := 5

/-- Linux `VMIN` index into `c_cc`. -/
def VMIN : Nat := 6

/-- `set_blocking_linux` (loragw_usb.c lines 106-127), success path: reads the
current attributes, sets `c_cc[VMIN] = blocking ? 1 : 0` and
`c_cc[VTIME] = 1`, and writes the attributes back.  Modelled as the pure
transformation applied to the attributes read by `tcgetattr`. -/
def set_blocking_linux (tty : Termios) (blocking : Bool) : Termios :=
  { tty with
    c_cc := fun i =>
      if i = VMIN then (if blocking then 1 else 0)
      else if i = VTIME then 1
      else tty.c_cc i }

/-! ## Device session (`lgw_usb_open` / `lgw_usb_close`) -/

/-- The outcomes of the external calls made by `lgw_usb_open`: whether
`malloc` succeeds, whether `open` yields a nonnegative descriptor, whether
the two terminal-configuration calls succeed, whether `mcu_ping` succeeds,
whether the version comparison (`strncmp` of the version string past its
first character against `mcu_version_string`) succeeds, and the outcomes of
the three `mcu_gpio_write` calls. -/
structure OpenEnv where
  mallocOk : Bool
  openOk : Bool
  attribsOk : Bool
  blockingOk : Bool
  pingOk : Bool
  versionOk : Bool
  gpio1Ok : Bool
  gpio2Ok : Bool
  gpio3Ok : Bool

/-- Observable outcome of one `lgw_usb_open` run: the return code, whether
`free(usb_device)` ran before returning, whether `*com_target_ptr` was set,
whether an OS descriptor was opened, whether `close` was called on it before
returning, and the `(port, pin, value)` triples passed to `mcu_gpio_write`. -/
structure OpenResult where
  ret : Int
  freed : Bool
  comTargetSet : Bool
  fdOpened : Bool
  fdClosed : Bool
  gpioCalls : List (Nat × Nat × Nat)

/-- `lgw_usb_open` (loragw_usb.c lines 132-194), transcribed branch by
branch.  `open` failure falls through to the final `free` + error return;
configuration failure frees and returns; `mcu_ping` failure and version
mismatch return the error with neither `free` nor `close`; the three
`mcu_gpio_write` calls always all execute (`x = ...; x |= ...; x |= ...`)
and any failure among them frees and returns; no path ever calls `close`. -/
def lgw_usb_open (env : OpenEnv) : OpenResult :=
  if env.mallocOk = false then
    { ret := LGW_USB_ERROR, freed := false, comTargetSet := false,
      fdOpened := false, fdClosed := false, gpioCalls := [] }
  else if env.openOk = false then
    { ret := LGW_USB_ERROR, freed := true, comTargetSet := false,
      fdOpened := false, fdClosed := false, gpioCalls := [] }
  else if (env.attribsOk && env.blockingOk) = false then
    { ret := LGW_USB_ERROR, freed := true, comTargetSet := false,
      fdOpened := true, fdClosed := false, gpioCalls := [] }
  else if env.pingOk = false then
    { ret := LGW_USB_ERROR, freed := false, comTargetSet := true,
      fdOpened := true, fdClosed := false, gpioCalls := [] }
  else if env.versionOk = false then
    { ret := -1, freed := false, comTargetSet := true,
      fdOpened := true, fdClosed := false, gpioCalls := [] }
  else if (env.gpio1Ok && env.gpio2Ok && env.gpio3Ok) = false then
    { ret := LGW_USB_ERROR, freed := true, comTargetSet := true,
      fdOpened := true, fdClosed := false,
      gpioCalls := [(0, 1, 1), (0, 2, 1), (0, 2, 0)] }
  else
    { ret := LGW_USB_SUCCESS, freed := false, comTargetSet := true,
      fdOpened := true, fdClosed := false,
      gpioCalls := [(0, 1, 1), (0, 2, 1), (0, 2, 0)] }

/-- Observable outcome of one `lgw_usb_close` run: the return code, whether
`free(com_target)` ran, and whether the OS `close` was called. -/
structure CloseResult where
  ret : Int
  freed : Bool
  closeCalled : Bool

/-- `lgw_usb_close` (loragw_usb.c lines 199-219): a null `com_target` is
rejected; otherwise `close(fd)` is called and `free(com_target)` runs
unconditionally, then the return code is `LGW_USB_ERROR` when `close`
reported failure (`a < 0`) and `LGW_USB_SUCCESS` otherwise.  `closeOk`
models `close(fd) >= 0`. -/
def lgw_usb_close (comTargetNull : Bool) (closeOk : Bool) : CloseResult :=
  if comTargetNull then
    { ret := LGW_USB_ERROR, freed := false, closeCalled := false }
  else
    { ret := if closeOk then LGW_USB_SUCCESS else LGW_USB_ERROR,
      freed := true, closeCalled := true }

/-! ## Temperature-sensor stub (`loragw_stts751.c`) -/

/-- Observable outcome of `stts751_get_temperature`: return code, value
written to `*temperature` (30 is exactly representable in `float`, so `Int`
is faithful), and the list of I2C bus accesses performed. -/
structure TempResult where
  ret : Int
  temperature : Int
  i2cOps : List (Nat × Nat)

/-- `stts751_configure` (loragw_stts751.c lines 80-85): ignores both
arguments and returns `LGW_I2C_SUCCESS`. -/
def stts751_configure (i2c_fd : Int) (i2c_addr : Nat) : Int :=
  LGW_I2C_SUCCESS

/-- `stts751_get_temperature` (loragw_stts751.c lines 89-96): ignores both
arguments, performs no I2C access, writes the constant 30 to
`*temperature`, and returns `LGW_I2C_SUCCESS`. -/
def stts751_get_temperature (i2c_fd : Int) (i2c_addr : Nat) : TempResult :=
  { ret := LGW_I2C_SUCCESS, temperature := 30, i2cOps := [] }

/-- Modelled from the spec: the decoding of a single-write frame described in
section 4.3 ("the read/write discriminator is bit 7 of the third byte;
address is 15 bits split across bytes 2 (low 7 bits) and 3 (all 8 bits)";
mux target is byte 1, the data byte is byte 4).  No decoder exists in
`src/`; this definition follows the spec's byte-layout words. -/
def decode_write_frame (frame : List Nat) : Nat × Nat × Nat :=
  (frame.getD 1 0, ((frame.getD 2 0) % 128) * 256 + frame.getD 3 0, frame.getD 4 0)

/-! ## Arithmetic bridges for the bitwise header encoding -/

/-- Masking with `0xFF` is reduction modulo 256. -/
theorem and_255_eq_mod (n : Nat) : n &&& 255 = n % 256 := by
  have h : (255 : Nat) = 2 ^ 8 - 1 := by norm_num
  rw [h, Nat.and_pow_two_sub_one_eq_mod]

/-- Masking with `0x7F` is reduction modulo 128. -/
theorem and_127_eq_mod (n : Nat) : n &&& 127 = n % 128 := by
  have h : (127 : Nat) = 2 ^ 7 - 1 := by norm_num
  rw [h, Nat.and_pow_two_sub_one_eq_mod]

/-- Shifting right by 8 is division by 256. -/
theorem shiftRight_8_eq_div (n : Nat) : n >>> 8 = n / 256 := by
  rw [Nat.shiftRight_eq_div_pow]

/-- Oring `0x80` into a 7-bit value adds 128. -/
theorem lor_128_eq_add : ∀ h < 128, 128 ||| h = 128 + h := by decide

/-- Bit 7 of `128 + h` is set when `h < 128`. -/
theorem testBit_7_of_add_128 : ∀ h < 128, Nat.testBit (128 + h) 7 = true := by decide

/-- Bit 7 of a 7-bit value is clear. -/
theorem testBit_7_of_lt_128 : ∀ h < 128, Nat.testBit h 7 = false := by decide

/-- For a 15-bit address, the write header byte after the mux byte
(`0x80 | ((address >> 8) & 0x7F)`, loragw_usb.c line 239) equals
`128 + address / 256`. -/
theorem write_header_byte_eq (address : Nat) (h : address < 32768) :
    0x80 ||| ((address >>> 8) &&& 0x7F) = 128 + address / 256 := by
  have h1 : address / 256 < 128 := by omega
  rw [shiftRight_8_eq_div, and_127_eq_mod, Nat.mod_eq_of_lt h1]
  exact lor_128_eq_add _ h1

/-- For a 15-bit address, the read header byte after the mux byte
(`0x00 | ((address >> 8) & 0x7F)`, loragw_usb.c line 273) equals
`address / 256`. -/
theorem read_header_byte_eq (address : Nat) (h : address < 32768) :
    0x00 ||| ((address >>> 8) &&& 0x7F) = address / 256 := by
  have h1 : address / 256 < 128 := by omega
  rw [Nat.zero_or, shiftRight_8_eq_div, and_127_eq_mod, Nat.mod_eq_of_lt h1]

/-! ## Claim theorems -/

/-- C4: for every 15-bit register address, bit 7 of frame byte 2 is 1 for the
write frame and 0 for the read frame, and recombining the low 7 bits of
byte 2 with the 8 bits of byte 3 recovers the original address for both
frames. -/
theorem C4_address_bit7_and_roundtrip (mux data address : Nat)
    (h : address < 32768) :
    Nat.testBit ((lgw_usb_w_frame mux address data).getD 2 0) 7 = true ∧
    Nat.testBit ((lgw_usb_r_frame mux address).getD 2 0) 7 = false ∧
    ((lgw_usb_w_frame mux address data).getD 2 0) % 128 * 256
      + (lgw_usb_w_frame mux address data).getD 3 0 = address ∧
    ((lgw_usb_r_frame mux address).getD 2 0) % 128 * 256
      + (lgw_usb_r_frame mux address).getD 3 0 = address := by
  have h1 : address / 256 < 128 := by omega
  have hw : (lgw_usb_w_frame mux address data).getD 2 0 = 128 + address / 256 := by
    simp [lgw_usb_w_frame, write_header_byte_eq address h]
  have hr : (lgw_usb_r_frame mux address).getD 2 0 = address / 256 := by
    simp [lgw_usb_r_frame, read_header_byte_eq address h]
  have hw3 : (lgw_usb_w_frame mux address data).getD 3 0 = address % 256 := by
    simp [lgw_usb_w_frame, and_255_eq_mod]
  have hr3 : (lgw_usb_r_frame mux address).getD 3 0 = address % 256 := by
    simp [lgw_usb_r_frame, and_255_eq_mod]
  refine ⟨?_, ?_, ?_, ?_⟩
  · rw [hw]; exact testBit_7_of_add_128 _ h1
  · rw [hr]; exact testBit_7_of_lt_128 _ h1
  · rw [hw, hw3]; omega
  · rw [hr, hr3]; omega

/-- C4 witness: the round-trip at `mux = 1`, `data = 2`, `address = 0x1234`. -/
theorem C4_address_bit7_and_roundtrip_witness :
    Nat.testBit ((lgw_usb_w_frame 1 4660 2).getD 2 0) 7 = true ∧
    Nat.testBit ((lgw_usb_r_frame 1 4660).getD 2 0) 7 = false ∧
    ((lgw_usb_w_frame 1 4660 2).getD 2 0) % 128 * 256
      + (lgw_usb_w_frame 1 4660 2).getD 3 0 = 4660 ∧
    ((lgw_usb_r_frame 1 4660).getD 2 0) % 128 * 256
      + (lgw_usb_r_frame 1 4660).getD 3 0 = 4660 :=
  C4_address_bit7_and_roundtrip 1 2 4660 (by norm_num)

/-- C5: for every `(mux, address, data)` the single-write frame is exactly
`[0, mux, 0x80 | ((address >> 8) & 0x7F), address & 0xFF, data]`, and when
the address fits in 15 bits the spec's decoding recovers `(mux, address,
data)` exactly. -/
theorem C5_write_frame_layout_and_decode (mux address data : Nat)
    (h : address < 32768) :
    lgw_usb_w_frame mux address data
      = [0, mux, 0x80 ||| ((address >>> 8) &&& 0x7F), address &&& 0xFF, data] ∧
    decode_write_frame (lgw_usb_w_frame mux address data)
      = (mux, address, data) := by
  refine ⟨rfl, ?_⟩
  simp only [decode_write_frame, lgw_usb_w_frame, List.getD_cons_succ,
    List.getD_cons_zero, write_header_byte_eq address h, and_255_eq_mod]
  have h2 : (128 + address / 256) % 128 * 256 + address % 256 = address := by
    omega
  rw [h2]

/-- C5 witness: layout and decode round-trip at `mux = 3`, `address =
0x0042`, `data = 0x7F`. -/
theorem C5_write_frame_layout_and_decode_witness :
    lgw_usb_w_frame 3 0x0042 0x7F
      = [0, 3, 0x80 ||| ((0x0042 >>> 8) &&& 0x7F), 0x0042 &&& 0xFF, 0x7F] ∧
    decode_write_frame (lgw_usb_w_frame 3 0x0042 0x7F) = (3, 0x0042, 0x7F) :=
  C5_write_frame_layout_and_decode 3 0x0042 0x7F (by norm_num)

/-- Environment in which everything succeeds except `mcu_ping`. -/
def pingFailEnv : OpenEnv :=
  { mallocOk := true, openOk := true, attribsOk := true, blockingOk := true,
    pingOk := false, versionOk := true, gpio1Ok := true, gpio2Ok := true,
    gpio3Ok := true }

/-- Environment in which everything succeeds except the version comparison. -/
def versionFailEnv : OpenEnv :=
  { mallocOk := true, openOk := true, attribsOk := true, blockingOk := true,
    pingOk := true, versionOk := false, gpio1Ok := true, gpio2Ok := true,
    gpio3Ok := true }

/-- Environment in which every external call succeeds. -/
def allOkEnv : OpenEnv :=
  { mallocOk := true, openOk := true, attribsOk := true, blockingOk := true,
    pingOk := true, versionOk := true, gpio1Ok := true, gpio2Ok := true,
    gpio3Ok := true }

/-- Environment in which everything succeeds except the second
`mcu_gpio_write` call of the reset sequence. -/
def gpio2FailEnv : OpenEnv :=
  { mallocOk := true, openOk := true, attribsOk := true, blockingOk := true,
    pingOk := true, versionOk := true, gpio1Ok := true, gpio2Ok := false,
    gpio3Ok := true }

/-- C1 counterexample: when `mcu_ping` fails, `lgw_usb_open` does return the
error code, but the handle memory is not released and the opened descriptor
is not closed — contradicting the claim's release/no-open-fd part. -/
theorem C1_handshake_failure_counterexample :
    (lgw_usb_open pingFailEnv).ret = LGW_USB_ERROR ∧
    ¬ ((lgw_usb_open pingFailEnv).freed = true) ∧
    (lgw_usb_open pingFailEnv).fdOpened = true ∧
    ¬ ((lgw_usb_open pingFailEnv).fdClosed = true) := by decide

/-- C1 (amended): for every open attempt in which the firmware-version
handshake fails (`mcu_ping` fails or the version comparison fails after the
port was opened and configured), `lgw_usb_open` returns an error, but the
handle memory is NOT released and the file descriptor remains open; the
handle has however already been stored in `*com_target_ptr`, so the caller
can release both via `lgw_usb_close`. -/
theorem C1_handshake_failure_leaks_handle (env : OpenEnv)
    (hm : env.mallocOk = true) (ho : env.openOk = true)
    (ha : env.attribsOk = true) (hb : env.blockingOk = true)
    (hfail : env.pingOk = false ∨ env.versionOk = false) :
    (lgw_usb_open env).ret < 0 ∧
    (lgw_usb_open env).freed = false ∧
    (lgw_usb_open env).fdOpened = true ∧
    (lgw_usb_open env).fdClosed = false ∧
    (lgw_usb_open env).comTargetSet = true := by
  rcases hfail with hf | hf
  · have hres : lgw_usb_open env =
        { ret := LGW_USB_ERROR, freed := false, comTargetSet := true,
          fdOpened := true, fdClosed := false, gpioCalls := [] } := by
      simp [lgw_usb_open, hm, ho, ha, hb, hf]
    rw [hres]
    exact ⟨by decide, rfl, rfl, rfl, rfl⟩
  · cases hp : env.pingOk
    · have hres : lgw_usb_open env =
          { ret := LGW_USB_ERROR, freed := false, comTargetSet := true,
            fdOpened := true, fdClosed := false, gpioCalls := [] } := by
        simp [lgw_usb_open, hm, ho, ha, hb, hp]
      rw [hres]
      exact ⟨by decide, rfl, rfl, rfl, rfl⟩
    · have hres : lgw_usb_open env =
          { ret := -1, freed := false, comTargetSet := true,
            fdOpened := true, fdClosed := false, gpioCalls := [] } := by
        simp [lgw_usb_open, hm, ho, ha, hb, hp, hf]
      rw [hres]
      exact ⟨by decide, rfl, rfl, rfl, rfl⟩

/-- C1 witness: the amended behaviour at the version-mismatch environment. -/
theorem C1_handshake_failure_leaks_handle_witness :
    (lgw_usb_open versionFailEnv).ret < 0 ∧
    (lgw_usb_open versionFailEnv).freed = false ∧
    (lgw_usb_open versionFailEnv).fdOpened = true ∧
    (lgw_usb_open versionFailEnv).fdClosed = false ∧
    (lgw_usb_open versionFailEnv).comTargetSet = true :=
  C1_handshake_failure_leaks_handle versionFailEnv rfl rfl rfl rfl
    (Or.inr rfl)

/-- C2 counterexample: at `mux = 0`, `address = 0x0042`, `data = 0x7F` the
write frame's byte 2 is `0x80`, not `0xC0`, and the read frame's byte 2 is
`0x00`, not `0x40` — the claimed frames are not the ones built. -/
theorem C2_frames_counterexample :
    lgw_usb_w_frame 0 0x0042 0x7F ≠ [0, 0, 0xC0, 0x42, 0x7F] ∧
    lgw_usb_r_frame 0 0x0042 ≠ [0, 0, 0x40, 0x42, 0, 0] := by decide

/-- C2 (amended): at `mux = 0`, `address = 0x0042`, `data = 0x7F` the write
frame is `[0, 0, 0x80, 0x42, 0x7F]`, the read frame is
`[0, 0, 0x00, 0x42, 0, 0]`, and when the relay's reply carries `0x7F` in the
last position the read returns `0x7F` to the caller. -/
theorem C2_end_to_end_frames :
    lgw_usb_w_frame 0 0x0042 0x7F = [0, 0, 0x80, 0x42, 0x7F] ∧
    lgw_usb_r_frame 0 0x0042 = [0, 0, 0x00, 0x42, 0x00, 0x00] ∧
    lgw_usb_r (fun _ _ => some [0, 0, 0, 0x42, 0, 0x7F]) 0 0x0042 0
      = (0, 0x7F) := by
  refine ⟨by decide, by decide, rfl⟩

/-- C3 counterexample: the 16-bit `command_size` arithmetic wraps, so for
burst size 65532 the write length passed to the relay is 0, not 65536, and
for burst size 65531 the read length is 0, not 65536. -/
theorem C3_command_size_counterexample :
    ¬ (lgw_usb_wb_command_size 65532 = 65532 + 4) ∧
    ¬ (lgw_usb_rb_command_size 65531 = 65531 + 5) := by decide

/-- C3 (amended): for every burst size `N ≤ 65530` (so that the 16-bit
`command_size` does not wrap), the burst-write request frame has length
exactly `N + 4` and the burst-read request frame has length exactly `N + 5`,
and the lengths passed to the relay primitive equal these values; for larger
`N` the `uint16_t` length computation wraps modulo 65536. -/
theorem C3_burst_frame_lengths (mux address : Nat) (data : List Nat) (N : Nat)
    (hN : N ≤ 65530) (hdata : N ≤ data.length) :
    (lgw_usb_wb_frame mux address data N).length = N + 4 ∧
    lgw_usb_wb_command_size N = N + 4 ∧
    (lgw_usb_rb_frame mux address N).length = N + 5 ∧
    lgw_usb_rb_command_size N = N + 5 := by
  refine ⟨?_, ?_, ?_, ?_⟩
  · simp [lgw_usb_wb_frame]
    omega
  · simp [lgw_usb_wb_command_size]
    omega
  · simp [lgw_usb_rb_frame]
  · simp [lgw_usb_rb_command_size]
    omega

/-- C3 witness: the burst lengths at `N = 2` with a 3-byte data buffer. -/
theorem C3_burst_frame_lengths_witness :
    (lgw_usb_wb_frame 0 0x10 [9, 9, 9] 2).length = 2 + 4 ∧
    lgw_usb_wb_command_size 2 = 2 + 4 ∧
    (lgw_usb_rb_frame 0 0x10 2).length = 2 + 5 ∧
    lgw_usb_rb_command_size 2 = 2 + 5 :=
  C3_burst_frame_lengths 0 0x10 [9, 9, 9] 2 (by norm_num) (by norm_num)

/-- C6 counterexample: a fully successful open issues three GPIO operations
through the relay, not two. -/
theorem C6_gpio_count_counterexample :
    (lgw_usb_open allOkEnv).ret = LGW_USB_SUCCESS ∧
    (lgw_usb_open allOkEnv).gpioCalls.length = 3 ∧
    ¬ ((lgw_usb_open allOkEnv).gpioCalls.length = 2) := by decide

/-- C6 (amended): once the handshake has succeeded, the reset phase issues
exactly three GPIO operations through the relay — power-enable
`(0, PA1, 1)`, reset assert `(0, PA2, 1)`, reset deassert `(0, PA2, 0)` —
and any GPIO failure causes the open to fail with the handle memory released
before returning. -/
theorem C6_reset_gpio_sequence (env : OpenEnv)
    (hm : env.mallocOk = true) (ho : env.openOk = true)
    (ha : env.attribsOk = true) (hb : env.blockingOk = true)
    (hp : env.pingOk = true) (hv : env.versionOk = true) :
    (lgw_usb_open env).gpioCalls = [(0, 1, 1), (0, 2, 1), (0, 2, 0)] ∧
    ((env.gpio1Ok && env.gpio2Ok && env.gpio3Ok) = false →
      (lgw_usb_open env).ret = LGW_USB_ERROR ∧
      (lgw_usb_open env).freed = true) := by
  cases hg : (env.gpio1Ok && env.gpio2Ok && env.gpio3Ok)
  · have hres : lgw_usb_open env =
        { ret := LGW_USB_ERROR, freed := true, comTargetSet := true,
          fdOpened := true, fdClosed := false,
          gpioCalls := [(0, 1, 1), (0, 2, 1), (0, 2, 0)] } := by
      simp [lgw_usb_open, hm, ho, ha, hb, hp, hv, hg]
    rw [hres]
    exact ⟨rfl, fun _ => ⟨rfl, rfl⟩⟩
  · have hres : lgw_usb_open env =
        { ret := LGW_USB_SUCCESS, freed := false, comTargetSet := true,
          fdOpened := true, fdClosed := false,
          gpioCalls := [(0, 1, 1), (0, 2, 1), (0, 2, 0)] } := by
      simp [lgw_usb_open, hm, ho, ha, hb, hp, hv, hg]
    rw [hres]
    exact ⟨rfl, fun hc => absurd hc (by simp)⟩

/-- C6 witness: the reset sequence and failure handling when the second GPIO
call fails. -/
theorem C6_reset_gpio_sequence_witness :
    (lgw_usb_open gpio2FailEnv).gpioCalls
        = [(0, 1, 1), (0, 2, 1), (0, 2, 0)] ∧
    ((gpio2FailEnv.gpio1Ok && gpio2FailEnv.gpio2Ok && gpio2FailEnv.gpio3Ok)
        = false →
      (lgw_usb_open gpio2FailEnv).ret = LGW_USB_ERROR ∧
      (lgw_usb_open gpio2FailEnv).freed = true) :=
  C6_reset_gpio_sequence gpio2FailEnv rfl rfl rfl rfl rfl rfl

/-- C7 counterexample: when the OS `close` fails, `lgw_usb_close` does free
the handle but returns `LGW_USB_ERROR`, not success. -/
theorem C7_close_failure_counterexample :
    (lgw_usb_close false false).freed = true ∧
    ¬ ((lgw_usb_close false false).ret = LGW_USB_SUCCESS) := by decide

/-- C7 (amended): for every non-null handle, `lgw_usb_close` calls the OS
`close` and releases the handle's memory regardless of the close outcome;
it returns `LGW_USB_SUCCESS` when the OS close succeeds and `LGW_USB_ERROR`
when it fails, so a close failure is observable through the return code
(it does not report success). -/
theorem C7_close_releases_memory (closeOk : Bool) :
    (lgw_usb_close false closeOk).freed = true ∧
    (lgw_usb_close false closeOk).closeCalled = true ∧
    (lgw_usb_close false closeOk).ret
      = (if closeOk then LGW_USB_SUCCESS else LGW_USB_ERROR) := by
  cases closeOk <;> exact ⟨rfl, rfl, rfl⟩

/-- A concrete terminal state used to instantiate the `set_blocking_linux`
theorem. -/
def sampleTty : Termios :=
  { c_ispeed := 4098, c_ospeed := 4098, c_cflag := 3261, c_iflag := 1,
    c_oflag := 4, c_lflag := 0, c_cc := fun i => 40 + i }

/-- C8: `set_blocking_linux` sets `VMIN = 1, VTIME = 1` in blocking mode and
`VMIN = 0, VTIME = 1` in short-timeout mode, and leaves every other terminal
attribute — speeds, `c_cflag`, `c_iflag`, `c_oflag`, `c_lflag`, and all
other control characters — unchanged from their current values. -/
theorem C8_set_blocking_only_touches_vmin_vtime (tty : Termios)
    (blocking : Bool) :
    (set_blocking_linux tty blocking).c_cc VMIN
        = (if blocking then 1 else 0) ∧
    (set_blocking_linux tty blocking).c_cc VTIME = 1 ∧
    (set_blocking_linux tty blocking).c_ispeed = tty.c_ispeed ∧
    (set_blocking_linux tty blocking).c_ospeed = tty.c_ospeed ∧
    (set_blocking_linux tty blocking).c_cflag = tty.c_cflag ∧
    (set_blocking_linux tty blocking).c_iflag = tty.c_iflag ∧
    (set_blocking_linux tty blocking).c_oflag = tty.c_oflag ∧
    (set_blocking_linux tty blocking).c_lflag = tty.c_lflag ∧
    ∀ i, i ≠ VMIN → i ≠ VTIME →
      (set_blocking_linux tty blocking).c_cc i = tty.c_cc i := by
  refine ⟨?_, ?_, rfl, rfl, rfl, rfl, rfl, rfl, ?_⟩
  · simp [set_blocking_linux]
  · simp [set_blocking_linux, VMIN, VTIME]
  · intro i hmin htime
    simp [set_blocking_linux, hmin, htime]

/-- C8 witness: blocking mode on a concrete terminal state, checking `VMIN`,
`VTIME` and the untouched control character at index 0. -/
theorem C8_set_blocking_only_touches_vmin_vtime_witness :
    (set_blocking_linux sampleTty true).c_cc VMIN = 1 ∧
    (set_blocking_linux sampleTty true).c_cc VTIME = 1 ∧
    (set_blocking_linux sampleTty true).c_lflag = sampleTty.c_lflag ∧
    (set_blocking_linux sampleTty true).c_cc 0 = sampleTty.c_cc 0 := by
  have h := C8_set_blocking_only_touches_vmin_vtime sampleTty true
  exact ⟨h.1, h.2.1, h.2.2.2.2.2.2.2.1,
    h.2.2.2.2.2.2.2.2 0 (by decide) (by decide)⟩

/-- C9: for every file descriptor and address, `stts751_get_temperature`
performs no I2C access, writes the constant 30 to the output location and
returns success; `stts751_configure` likewise ignores its arguments and
returns success. -/
theorem C9_temperature_stub_constant (i2c_fd : Int) (i2c_addr : Nat) :
    stts751_get_temperature i2c_fd i2c_addr
      = { ret := LGW_I2C_SUCCESS, temperature := 30, i2cOps := [] } ∧
    stts751_configure i2c_fd i2c_addr = LGW_I2C_SUCCESS :=
  ⟨rfl, rfl⟩

/-- C10: when the relay primitive fails, `lgw_usb_r` returns the uniform
transfer error `-1` and leaves the caller's output byte unchanged, and
`lgw_usb_rb` likewise returns `-1` and leaves the caller's buffer unchanged
(the copy from the reply happens only on the success branch). -/
theorem C10_relay_failure_preserves_output
    (spi : List Nat → Nat → Option (List Nat))
    (mux address data0 : Nat) (buf0 : List Nat) (size : Nat)
    (hr : spi (lgw_usb_r_frame mux address) 6 = none)
    (hrb : spi (lgw_usb_rb_frame mux address size)
        (lgw_usb_rb_command_size size) = none) :
    lgw_usb_r spi mux address data0 = (-1, data0) ∧
    lgw_usb_rb spi mux address buf0 size = (-1, buf0) := by
  unfold lgw_usb_r lgw_usb_rb
  rw [hr, hrb]
  exact ⟨rfl, rfl⟩

/-- C10 witness: an always-failing relay leaves the output byte 7 and the
buffer `[3, 4]` unchanged. -/
theorem C10_relay_failure_preserves_output_witness :
    lgw_usb_r (fun _ _ => none) 0 2 7 = (-1, 7) ∧
    lgw_usb_rb (fun _ _ => none) 0 2 [3, 4] 2 = (-1, [3, 4]) :=
  C10_relay_failure_preserves_output (fun _ _ => none) 0 2 7 [3, 4] 2 rfl rfl

end Sx1302
